import Mathlib

/-!
Verification of the FavaMCPServer income-statement summarizer (`src/main.py`).

The development shallowly embeds the Python program:
* JSON values are the inductive `Json` (numbers modelled as `Rat`;
  the embedding does not track the float/int distinction or IEEE
  rounding, which no stated claim depends on).
* Python dictionaries are association lists `List (String × Json)`;
  `lookupField` is `d[k]` (first binding wins; Python dicts have unique
  keys, so inputs of interest never duplicate keys).
* `d.get(k)` is `pyGet`: a key bound to JSON `null` decodes to Python
  `None`, indistinguishable from an absent key, so `pyGet` collapses
  `null` to `none`.
* Python `or` on such lookup results is `pyOr`, using Python truthiness.
* Fallible Python code is embedded with `Except`.
-/

namespace FavaMCP

/-- A decoded JSON value (the `RawStatement` of the spec). -/
inductive Json where
  | null : Json
  | bool (b : Bool) : Json
  | num (q : Rat) : Json
  | str (s : String) : Json
  | arr (elts : List Json) : Json
  | obj (fields : List (String × Json)) : Json

/-- Python truthiness of a decoded JSON value: `None`, `False`, zero,
empty strings and empty containers are falsy. -/
def truthy : Json → Bool
  | .null => false
  | .bool b => b
  | .num q => decide (q ≠ 0)
  | .str s => !s.isEmpty
  | .arr l => !l.isEmpty
  | .obj f => !f.isEmpty

/-- `a or b` in Python, where `a`, `b` are `.get` results (`none` is
Python `None`): the first operand is returned when truthy, otherwise the
second operand is returned as-is. -/
def pyOr (a b : Option Json) : Option Json :=
  match a with
  | some v => if truthy v then some v else b
  | none => b

/-- Dictionary subscript `d[k]` on an association list (first binding wins). -/
def lookupField : List (String × Json) → String → Option Json
  | [], _ => none
  | (k, v) :: rest, key => if k = key then some v else lookupField rest key

/-- `d.get(k)`: like `lookupField`, but a key bound to JSON `null`
(Python `None`) is indistinguishable from an absent key. -/
def pyGet (fields : List (String × Json)) (key : String) : Option Json :=
  match lookupField fields key with
  | some .null => none
  | r => r

/-- `k in d` for a dictionary: key presence, regardless of the value
(a `null` value still counts, unlike `pyGet`). -/
def hasKey (fields : List (String × Json)) (key : String) : Bool :=
  (lookupField fields key).isSome

/-! ### Numeric coercion: the model of Python `float(x)` on strings -/

/-- Numeric value of a list of decimal digit characters. -/
def digitsToNat (cs : List Char) : Nat :=
  cs.foldl (fun a c => a * 10 + (c.toNat - 48)) 0

/-- Split a character list at the first occurrence of `c`; the second
component is `none` when `c` does not occur. -/
def splitAtChar (c : Char) : List Char → List Char × Option (List Char)
  | [] => ([], none)
  | x :: xs =>
      if x = c then ([], some xs)
      else
        let r := splitAtChar c xs
        (x :: r.1, r.2)

/-- Strip one optional leading sign; returns (isNegative, rest). -/
def parseSign : List Char → Bool × List Char
  | [] => (false, [])
  | c :: cs =>
      if c = Char.ofNat 45 then (true, cs)
      else if c = Char.ofNat 43 then (false, cs)
      else (false, c :: cs)

/-- ASCII whitespace as stripped by Python `float` (space, tab, newline,
carriage return, form feed, vertical tab). -/
def isSpaceChar (c : Char) : Bool :=
  c.toNat = 32 || c.toNat = 9 || c.toNat = 10 || c.toNat = 13 || c.toNat = 11 || c.toNat = 12

/-- Strip leading and trailing whitespace from a character list. -/
def trimChars (cs : List Char) : List Char :=
  ((cs.dropWhile isSpaceChar).reverse.dropWhile isSpaceChar).reverse

/-- ASCII lower-casing of one character. -/
def lowerChar (c : Char) : Char :=
  if 65 ≤ c.toNat && c.toNat ≤ 90 then Char.ofNat (c.toNat + 32) else c

/-- `10 ^ e` as a rational, for a possibly negative exponent. -/
def ratPow10 (e : Int) : Rat :=
  if 0 ≤ e then ((10 : Rat)) ^ e.toNat else 1 / ((10 : Rat)) ^ (-e).toNat

/-- Parse an exponent part: optional sign followed by at least one digit. -/
def parseExpPart (cs : List Char) : Option Int :=
  let sr := parseSign cs
  if !sr.2.isEmpty && sr.2.all Char.isDigit then
    some (if sr.1 then -(digitsToNat sr.2 : Int) else (digitsToNat sr.2 : Int))
  else none

/-- Model of Python `float(s)` on a string: optional surrounding
whitespace, optional sign, a decimal mantissa (digits, optionally with a
decimal point, at least one digit overall) and an optional exponent.
(The special spellings `inf`/`nan` and underscore digit separators are
outside the model; no claim observes them, and `Rat` has no NaN.) -/
def parsePyFloat (s : String) : Option Rat :=
  let cs := (trimChars s.toList).map lowerChar
  let sr := parseSign cs
  let neg := sr.1
  let mantExp := splitAtChar (Char.ofNat 101) sr.2
  let expVal : Option Int :=
    match mantExp.2 with
    | none => some 0
    | some ecs => parseExpPart ecs
  match expVal with
  | none => none
  | some e =>
      let ipFp := splitAtChar (Char.ofNat 46) mantExp.1
      let ip := ipFp.1
      let fp := (ipFp.2).getD []
      if ip.all Char.isDigit && fp.all Char.isDigit && !(ip ++ fp).isEmpty then
        let mag : Rat := (digitsToNat (ip ++ fp) : Rat) * ratPow10 (e - fp.length)
        some (if neg then -mag else mag)
      else none

/-- Model of Python `float(x)` on a decoded JSON value: numbers convert,
booleans convert (`bool` is an `int` subclass: `True ↦ 1.0`,
`False ↦ 0.0`), numeric strings parse, everything else raises (mapped to
`none` by `_num`). -/
def pyFloat : Json → Option Rat
  | .null => none
  | .bool b => some (if b then 1 else 0)
  | .num q => some q
  | .str s => parsePyFloat s
  | .arr _ => none
  | .obj _ => none

/-- `_num` from `src/main.py`: `float(x)` with every exception caught and
turned into `None`. The argument is `Option Json` because the Python
callers pass `.get` results, which may be `None` (absence). -/
def _num (x : Option Json) : Option Rat :=
  match x with
  | none => none
  | some j => pyFloat j

/-! ### Rendering: the model of Python `str(x)` -/

/-- Rendering of a JSON number. The embedding does not track Python's
int/float distinction, so integral values render int-style and other
values fraction-style; no claim observes this rendering. -/
def ratPyStr (q : Rat) : String :=
  if q.den = 1 then toString q.num else toString q.num ++ "/" ++ toString q.den

mutual
/-- Model of Python `repr()` on a decoded JSON value. -/
def pyRepr : Json → String
  | .null => "None"
  | .bool b => if b then "True" else "False"
  | .num q => ratPyStr q
  | .str s => "\x27" ++ s ++ "\x27"
  | .arr l => "[" ++ pyReprElems l ++ "]"
  | .obj f => "\x7b" ++ pyReprFields f ++ "\x7d"

/-- Comma-separated `repr` of list elements. -/
def pyReprElems : List Json → String
  | [] => ""
  | [x] => pyRepr x
  | x :: y :: xs => pyRepr x ++ ", " ++ pyReprElems (y :: xs)

/-- Comma-separated `repr` of dictionary items. -/
def pyReprFields : List (String × Json) → String
  | [] => ""
  | [(k, v)] => "\x27" ++ k ++ "\x27: " ++ pyRepr v
  | (k, v) :: p :: xs =>
      "\x27" ++ k ++ "\x27: " ++ pyRepr v ++ ", " ++ pyReprFields (p :: xs)
end

/-- Model of Python `str(x)` on a decoded JSON value: identity on
strings, `repr`-style otherwise. -/
def pyStr : Json → String
  | .str s => s
  | j => pyRepr j

/-! ### Size lemmas for the recursive tree walk -/

theorem sizeOf_lookupField {f : List (String × Json)} {k : String} {v : Json}
    (h : lookupField f k = some v) : sizeOf v < sizeOf f := by
  induction f with
  | nil => simp [lookupField] at h
  | cons p rest ih =>
      obtain ⟨pk, pv⟩ := p
      by_cases hk : pk = k
      · simp only [lookupField, if_pos hk, Option.some.injEq] at h
        subst h
        simp
        omega
      · simp only [lookupField, if_neg hk] at h
        have := ih h
        simp
        omega

theorem pyGet_eq_some {f : List (String × Json)} {k : String} {v : Json}
    (h : pyGet f k = some v) : lookupField f k = some v := by
  unfold pyGet at h
  cases hl : lookupField f k with
  | none => rw [hl] at h; simp at h
  | some w => cases w <;> rw [hl] at h <;> simp_all

theorem pyOr_eq_some {a b : Option Json} {v : Json}
    (h : pyOr a b = some v) : a = some v ∨ b = some v := by
  cases a with
  | none => exact Or.inr h
  | some w =>
      by_cases hw : truthy w
      · simp [pyOr, hw] at h
        exact Or.inl (by rw [h])
      · simp [pyOr, hw] at h
        exact Or.inr h

/-- The child-collection lookup chain of `collect_categories`:
`node.get("children") or node.get("accounts") or node.get("items")`. -/
def childCollection (fields : List (String × Json)) : Option Json :=
  pyOr (pyGet fields "children") (pyOr (pyGet fields "accounts") (pyGet fields "items"))

theorem sizeOf_childCollection {f : List (String × Json)} {v : Json}
    (h : childCollection f = some v) : sizeOf v < sizeOf (Json.obj f) := by
  unfold childCollection at h
  have hv : lookupField f "children" = some v ∨ lookupField f "accounts" = some v ∨
      lookupField f "items" = some v := by
    rcases pyOr_eq_some h with h1 | h2
    · exact Or.inl (pyGet_eq_some h1)
    · rcases pyOr_eq_some h2 with h3 | h4
      · exact Or.inr (Or.inl (pyGet_eq_some h3))
      · exact Or.inr (Or.inr (pyGet_eq_some h4))
  have hs : sizeOf v < sizeOf f := by
    rcases hv with h | h | h <;> exact sizeOf_lookupField h
  simp
  omega

/-! ### The category walk -/

/-- A collected category record `{"name": str(name), "value": val}`. -/
structure CategoryEntry where
  name : String
  value : Rat
deriving DecidableEq

/-- The name lookup chain of `collect_categories`:
`node.get("name") or node.get("label") or node.get("account") or node.get("title")`. -/
def nodeName (fields : List (String × Json)) : Option Json :=
  pyOr (pyGet fields "name") (pyOr (pyGet fields "label")
    (pyOr (pyGet fields "account") (pyGet fields "title")))

/-- The value lookup chain of `collect_categories`:
`_num(node.get("balance") or node.get("amount") or node.get("value") or node.get("total"))`. -/
def nodeVal (fields : List (String × Json)) : Option Rat :=
  _num (pyOr (pyGet fields "balance") (pyOr (pyGet fields "amount")
    (pyOr (pyGet fields "value") (pyGet fields "total"))))

/-- The entry recorded at an object node, if any:
`if name is not None and val is not None: cats.append(...)`. -/
def nodeEntry (fields : List (String × Json)) : Option CategoryEntry :=
  match nodeName fields, nodeVal fields with
  | some n, some v => some ⟨pyStr n, v⟩
  | _, _ => none

mutual
/-- `collect_categories` from `src/main.py`: pre-order walk of the JSON
tree, appending a `CategoryEntry` at each object node whose name and
value chains both resolve, then recursing into the node's child
collection (list elements one by one, a dict directly); list nodes
recurse into every element; other nodes are dead ends. -/
def collect_categories : Json → List CategoryEntry
  | .obj fields =>
      (match nodeEntry fields with
       | some e => [e]
       | none => []) ++
      (match hc : childCollection fields with
       | some (.arr l) => collectChildren l
       | some (.obj f2) => collect_categories (.obj f2)
       | _ => [])
  | .arr l => collectChildren l
  | _ => []
termination_by j => sizeOf j
decreasing_by
  all_goals simp_wf
  all_goals (have h1 := sizeOf_childCollection hc; simp at h1; omega)

/-- Walk of a list of sibling nodes, left to right. -/
def collectChildren : List Json → List CategoryEntry
  | [] => []
  | x :: xs => collect_categories x ++ collectChildren xs
termination_by l => sizeOf l
decreasing_by
  all_goals simp_wf
  all_goals omega
end

/-- Unfolding rule for `collect_categories` at an object node. -/
@[simp] theorem collect_categories_obj (fields : List (String × Json)) :
    collect_categories (Json.obj fields) =
      (nodeEntry fields).toList ++
      (match childCollection fields with
       | some (Json.arr l) => collectChildren l
       | some (Json.obj f2) => collect_categories (Json.obj f2)
       | _ => []) := by
  rw [collect_categories.eq_1]
  congr 1
  · cases nodeEntry fields <;> rfl
  · cases h : childCollection fields with
    | none => rfl
    | some v => cases v <;> rfl

/-- Unfolding rule for `collect_categories` at a list node. -/
@[simp] theorem collect_categories_arr (l : List Json) :
    collect_categories (Json.arr l) = collectChildren l := by
  rw [collect_categories.eq_def]

@[simp] theorem collect_categories_null : collect_categories Json.null = [] := by
  rw [collect_categories.eq_def]

@[simp] theorem collect_categories_bool (b : Bool) :
    collect_categories (Json.bool b) = [] := by
  rw [collect_categories.eq_def]

@[simp] theorem collect_categories_num (q : Rat) :
    collect_categories (Json.num q) = [] := by
  rw [collect_categories.eq_def]

@[simp] theorem collect_categories_str (s : String) :
    collect_categories (Json.str s) = [] := by
  rw [collect_categories.eq_def]

@[simp] theorem collectChildren_nil : collectChildren [] = [] := by
  rw [collectChildren.eq_def]

@[simp] theorem collectChildren_cons (x : Json) (xs : List Json) :
    collectChildren (x :: xs) = collect_categories x ++ collectChildren xs := by
  rw [collectChildren.eq_def]

/-- The top-level walk: `for key in ("children","accounts","items","tree","data"):
if key in data: collect_categories(data[key])`. Subscript `data[key]` does
not collapse a `null` value (but `collect_categories` of `null` is empty). -/
def collectKey (fields : List (String × Json)) (key : String) : List CategoryEntry :=
  match lookupField fields key with
  | some v => collect_categories v
  | none => []

/-- All categories collected from a top-level statement object. -/
def topLevelCats (fields : List (String × Json)) : List CategoryEntry :=
  collectKey fields "children" ++ collectKey fields "accounts" ++
    collectKey fields "items" ++ collectKey fields "tree" ++ collectKey fields "data"

/-! ### Totals derivation -/

/-- The three optional totals of a summary. -/
structure Totals where
  income : Option Rat
  expenses : Option Rat
  net_profit : Option Rat
deriving DecidableEq

/-- The net chain inside a `totals` dict:
`_num(t.get("net") or t.get("profit") or t.get("net_profit"))`. -/
def netFromTotalsDict (tf : List (String × Json)) : Option Rat :=
  _num (pyOr (pyGet tf "net") (pyOr (pyGet tf "profit") (pyGet tf "net_profit")))

/-- Totals taken from a `totals` mapping, when the top-level key `totals`
holds a dict: `_num(t.get("income"))`, `_num(t.get("expenses"))`, and
the net chain. -/
def totalsFromDict (fields : List (String × Json)) : Option Rat × Option Rat × Option Rat :=
  match pyGet fields "totals" with
  | some (.obj tf) =>
      (_num (pyGet tf "income"), _num (pyGet tf "expenses"), netFromTotalsDict tf)
  | _ => (none, none, none)

/-- The top-level net fallback chain:
`_num(data.get("net_profit") or data.get("net") or data.get("profit"))`. -/
def topLevelNet (fields : List (String × Json)) : Option Rat :=
  _num (pyOr (pyGet fields "net_profit") (pyOr (pyGet fields "net") (pyGet fields "profit")))

/-- `income_total` after the `totals`-dict attempt and the top-level
`income` fallback. -/
def incomeTotal (fields : List (String × Json)) : Option Rat :=
  match (totalsFromDict fields).1 with
  | some v => some v
  | none => _num (pyGet fields "income")

/-- `expenses_total` after the `totals`-dict attempt and the top-level
`expenses` fallback. -/
def expensesTotal (fields : List (String × Json)) : Option Rat :=
  match (totalsFromDict fields).2.1 with
  | some v => some v
  | none => _num (pyGet fields "expenses")

/-- `net_total` after the `totals`-dict attempt and the top-level
net chain, before the `income + expenses` fallback. -/
def netBeforeFallback (fields : List (String × Json)) : Option Rat :=
  match (totalsFromDict fields).2.2 with
  | some v => some v
  | none => topLevelNet fields

/-- The accumulated totals of `_summarize_income_statement`: the
`totals` dict first, then top-level `income` / `expenses`, then the
top-level net chain, then `net = income + expenses` as a last resort. -/
def totalsOf (fields : List (String × Json)) : Totals :=
  let income := incomeTotal fields
  let expenses := expensesTotal fields
  let net := match netBeforeFallback fields, income, expenses with
    | none, some i, some e => some (i + e)
    | n, _, _ => n
  ⟨income, expenses, net⟩

/-- Truthiness of a `.get` result (Python `None`, i.e. `none`, is falsy). -/
def truthyOpt : Option Json → Bool
  | none => false
  | some v => truthy v

theorem pyOr_of_truthy {a : Option Json} (b : Option Json)
    (h : truthyOpt a = true) : pyOr a b = a := by
  cases a with
  | none => simp [truthyOpt] at h
  | some v => simp only [truthyOpt] at h; simp [pyOr, h]

theorem pyOr_of_falsy {a : Option Json} (b : Option Json)
    (h : truthyOpt a = false) : pyOr a b = b := by
  cases a with
  | none => rfl
  | some v => simp only [truthyOpt] at h; simp [pyOr, h]

/-! ### Ranking -/

/-- One step of Python's stable descending sort: insert `x` (an element
earlier in the original order than everything in `l`) before the first
element whose key is not larger. -/
def insertDescBy (key : CategoryEntry → Rat) (x : CategoryEntry) :
    List CategoryEntry → List CategoryEntry
  | [] => [x]
  | y :: ys => if key y ≤ key x then x :: y :: ys else y :: insertDescBy key x ys

/-- Model of Python `sorted(l, key=key, reverse=True)`: descending by
key, ties kept in original order (CPython's sort is stable and
`reverse=True` preserves the order of equal elements). -/
def sortDescBy (key : CategoryEntry → Rat) : List CategoryEntry → List CategoryEntry
  | [] => []
  | x :: xs => insertDescBy key x (sortDescBy key xs)

/-- `sorted([c for c in cats if c["value"] is not None and c["value"] > 0],
key=..., reverse=True)[:5]` (collected values are never `None` by
construction of `nodeEntry`). -/
def topIncomeOf (cats : List CategoryEntry) : List CategoryEntry :=
  (sortDescBy (fun c => c.value) (cats.filter (fun c => 0 < c.value))).take 5

/-- `sorted([c for c in cats if ... c["value"] < 0], key=lambda x:
abs(x["value"]), reverse=True)[:5]`. -/
def topExpensesOf (cats : List CategoryEntry) : List CategoryEntry :=
  (sortDescBy (fun c => |c.value|) (cats.filter (fun c => c.value < 0))).take 5

/-! ### Stable-sort lemmas -/

theorem insertDescBy_perm (key : CategoryEntry → Rat) (x : CategoryEntry)
    (l : List CategoryEntry) : (insertDescBy key x l).Perm (x :: l) := by
  induction l with
  | nil => exact List.Perm.refl _
  | cons y ys ih =>
      rw [insertDescBy]
      by_cases h : key y ≤ key x
      · rw [if_pos h]
      · rw [if_neg h]
        exact (ih.cons y).trans (List.Perm.swap x y ys)

theorem sortDescBy_perm (key : CategoryEntry → Rat) (l : List CategoryEntry) :
    (sortDescBy key l).Perm l := by
  induction l with
  | nil => exact List.Perm.refl _
  | cons x xs ih =>
      rw [sortDescBy]
      exact (insertDescBy_perm key x (sortDescBy key xs)).trans (ih.cons x)

theorem insertDescBy_pairwise (key : CategoryEntry → Rat) (x : CategoryEntry)
    {l : List CategoryEntry} (h : l.Pairwise (fun a b => key b ≤ key a)) :
    (insertDescBy key x l).Pairwise (fun a b => key b ≤ key a) := by
  induction l with
  | nil => simp [insertDescBy]
  | cons y ys ih =>
      rw [insertDescBy]
      rcases List.pairwise_cons.mp h with ⟨hy, hys⟩
      by_cases hxy : key y ≤ key x
      · rw [if_pos hxy]
        refine List.pairwise_cons.mpr ⟨?_, h⟩
        intro b hb
        rcases List.mem_cons.mp hb with rfl | hb
        · exact hxy
        · exact le_trans (hy b hb) hxy
      · rw [if_neg hxy]
        refine List.pairwise_cons.mpr ⟨?_, ih hys⟩
        intro b hb
        have hb2 : b ∈ x :: ys := (insertDescBy_perm key x ys).mem_iff.mp hb
        rcases List.mem_cons.mp hb2 with rfl | hb2
        · exact le_of_lt (lt_of_not_le hxy)
        · exact hy b hb2

theorem sortDescBy_pairwise (key : CategoryEntry → Rat) (l : List CategoryEntry) :
    (sortDescBy key l).Pairwise (fun a b => key b ≤ key a) := by
  induction l with
  | nil => simp [sortDescBy]
  | cons x xs ih =>
      rw [sortDescBy]
      exact insertDescBy_pairwise key x ih

theorem insertDescBy_filter_key (key : CategoryEntry → Rat) (x : CategoryEntry)
    (l : List CategoryEntry) (q : Rat) :
    (insertDescBy key x l).filter (fun c => key c == q) =
      (if key x == q then [x] else []) ++ l.filter (fun c => key c == q) := by
  induction l with
  | nil =>
      by_cases hx : key x = q
      · simp [insertDescBy, List.filter_cons, beq_iff_eq, hx]
      · simp [insertDescBy, List.filter_cons, beq_iff_eq, hx]
  | cons y ys ih =>
      rw [insertDescBy]
      by_cases hxy : key y ≤ key x
      · rw [if_pos hxy]
        by_cases hx : key x = q <;>
          simp [List.filter_cons, beq_iff_eq, hx]
      · rw [if_neg hxy]
        have hlt : key x < key y := lt_of_not_le hxy
        by_cases hy : key y = q
        · have hx : ¬ key x = q := fun hc => absurd (hc.trans hy.symm) (ne_of_lt hlt)
          simp [List.filter_cons, beq_iff_eq, hy, hx, ih]
        · by_cases hx : key x = q <;> simp [List.filter_cons, beq_iff_eq, hy, hx, ih]

theorem sortDescBy_filter_key (key : CategoryEntry → Rat) (l : List CategoryEntry) (q : Rat) :
    (sortDescBy key l).filter (fun c => key c == q) = l.filter (fun c => key c == q) := by
  induction l with
  | nil => rfl
  | cons x xs ih =>
      rw [sortDescBy, insertDescBy_filter_key]
      by_cases hx : key x = q <;> simp [List.filter_cons, beq_iff_eq, hx, ih]

/-! ### The summarizer -/

/-- The normalized summary. -/
structure Summary where
  notes : List String
  totals : Totals
  top_income : List CategoryEntry
  top_expenses : List CategoryEntry
deriving DecidableEq

/-- The three fixed advisory notes appended at the end of the summarizer. -/
def summaryNotes : List String :=
  ["Income is money in; expenses are money out (often negative).",
   "Net Profit ≈ Income + Expenses (if expenses are negative, they reduce profit).",
   "Numbers are best-effort parsed; Fava’s API may change between versions."]

/-- The summarizer body on a dict `data` (association-list fields):
totals heuristics, category walk, ranking guarded by `if cats:`, fixed
notes. Total — no operation on a dict input can raise. -/
def summarizeFields (fields : List (String × Json)) : Summary :=
  let cats := topLevelCats fields
  { notes := summaryNotes
    totals := totalsOf fields
    top_income := if cats.isEmpty then [] else topIncomeOf cats
    top_expenses := if cats.isEmpty then [] else topExpensesOf cats }

/-- `_summarize_income_statement` from `src/main.py`. Its very first
field access `data.get("totals")` raises `AttributeError` when `data` is
not a dict (lists, strings, numbers, booleans and `None` have no `.get`),
so the embedding returns an error for every non-object input; on object
input every subsequent operation is total. -/
def _summarize_income_statement : Json → Except String Summary
  | .obj fields => .ok (summarizeFields fields)
  | _ => .error "AttributeError: no attribute get"

/-! ### Fetcher and route -/

/-- An `HTTPException(status_code=..., detail=...)`. -/
structure HTTPException where
  status_code : Nat
  detail : String
deriving DecidableEq

/-- The observable outcome of the single outbound GET issued by the
fetcher: either an HTTP response (status plus decoded JSON body) or a
transport-level `requests` exception carrying its message. A 200 body
that fails to decode also surfaces as a `requests` exception and is
covered by `transportError`. -/
inductive UpstreamOutcome where
  | response (status : Nat) (body : Json)
  | transportError (cause : String)

/-- `_http_get_income_statement` from `src/main.py`: non-200 statuses
raise `HTTPException(status, f"Fava returned {status}")` (not caught by
the `requests.exceptions.RequestException` handler), transport failures
raise `HTTPException(502, f"Failed to reach Fava: {e}")`, and a 200
response returns its decoded body. -/
def _http_get_income_statement : UpstreamOutcome → Except HTTPException Json
  | .response status body =>
      if status = 200 then .ok body
      else .error ⟨status, "Fava returned " ++ toString status⟩
  | .transportError cause => .error ⟨502, "Failed to reach Fava: " ++ cause⟩

/-- The upstream URL composed from the default configuration:
`{FAVA_BASE_URL}/{FAVA_LEDGER_SLUG}/api/income_statement`. -/
def FAVA_INCOME_API : String :=
  "http://127.0.0.1:5000" ++ "/" ++ "example-beancount-file" ++ "/api/income_statement"

/-- The response body of a successful request. -/
structure RouteResult where
  source : String
  summary : Summary
  raw : Option Json

/-- What the route handler produces: a body, a raised `HTTPException`,
or an uncaught exception (which the framework reports as a 500). -/
inductive RouteOutcome where
  | ok (r : RouteResult)
  | httpError (e : HTTPException)
  | internalError (msg : String)

/-- `explain_income_statement` from `src/main.py`, with the outbound GET
abstracted as an `UpstreamOutcome`: fetch, summarize, assemble
`{"source":…, "summary":…}` and attach `raw` exactly when `return_raw`. -/
def explain_income_statement (outcome : UpstreamOutcome) (return_raw : Bool) : RouteOutcome :=
  match _http_get_income_statement outcome with
  | .error e => .httpError e
  | .ok data =>
      match _summarize_income_statement data with
      | .error m => .internalError m
      | .ok s => .ok ⟨FAVA_INCOME_API, s, if return_raw then some data else none⟩

/-- The default of the `return_raw` query parameter. -/
def return_raw_default : Bool := true

/-! ## The claims -/

/-- Claim C1 (amended to JSON-object inputs): for every RawStatement that
is a JSON object, the summarizer returns a Summary and never raises; in
particular on the empty object all three totals are unknown (`none`) and
both ranked lists are empty. -/
theorem claim_C1 :
    (∀ fields : List (String × Json),
      _summarize_income_statement (Json.obj fields) = Except.ok (summarizeFields fields)) ∧
    _summarize_income_statement (Json.obj []) =
      Except.ok ⟨summaryNotes, ⟨none, none, none⟩, [], []⟩ :=
  ⟨fun _ => rfl, rfl⟩

/-- Claim C1 counterexample: on a RawStatement that is not a JSON object
(here the JSON array `[]`), `data.get("totals")` raises `AttributeError`,
so the summarizer does not return a Summary; the claim quantified over
arbitrary JSON values is false. -/
theorem claim_C1_counterexample :
    _summarize_income_statement (Json.arr []) =
      Except.error "AttributeError: no attribute get" := rfl

/-- Claim C5: whenever income and expenses both resolve and the direct
net chains resolve nothing, the summary's net_profit is their sum. -/
theorem claim_C5 (fields : List (String × Json)) (i e : Rat)
    (h1 : incomeTotal fields = some i) (h2 : expensesTotal fields = some e)
    (h3 : netBeforeFallback fields = none) :
    (summarizeFields fields).totals = ⟨some i, some e, some (i + e)⟩ := by
  show totalsOf fields = _
  unfold totalsOf
  rw [h1, h2, h3]

/-- Claim C5 witness: income 8000 and expenses −6000 with no net field
give net_profit 2000. -/
theorem claim_C5_witness :
    (summarizeFields [("income", Json.num 8000), ("expenses", Json.num (-6000))]).totals =
      ⟨some 8000, some (-6000), some 2000⟩ := by
  have h := claim_C5 [("income", Json.num 8000), ("expenses", Json.num (-6000))]
    8000 (-6000) rfl rfl rfl
  rw [h, show (8000 : Rat) + (-6000) = 2000 by norm_num]

/-- Claim C6: a non-200 upstream status fails with that same status and a
message naming it; a transport exception fails with 502 and a message
carrying the cause text; in both cases the route propagates the failure
and performs no summarization; a 200 response returns the decoded body. -/
theorem claim_C6 (s : Nat) (body : Json) (cause : String) (rr : Bool) (hs : s ≠ 200) :
    (_http_get_income_statement (.response s body) =
        Except.error ⟨s, "Fava returned " ++ toString s⟩ ∧
      explain_income_statement (.response s body) rr =
        RouteOutcome.httpError ⟨s, "Fava returned " ++ toString s⟩) ∧
    (_http_get_income_statement (.transportError cause) =
        Except.error ⟨502, "Failed to reach Fava: " ++ cause⟩ ∧
      explain_income_statement (.transportError cause) rr =
        RouteOutcome.httpError ⟨502, "Failed to reach Fava: " ++ cause⟩) ∧
    _http_get_income_statement (.response 200 body) = Except.ok body := by
  refine ⟨⟨?_, ?_⟩, ⟨rfl, rfl⟩, rfl⟩
  · simp [_http_get_income_statement, hs]
  · simp [explain_income_statement, _http_get_income_statement, hs]

/-- Claim C6 witness: upstream status 500 yields the 500
`HTTPException` with detail naming the status. -/
theorem claim_C6_witness :
    _http_get_income_statement (.response 500 (Json.obj [])) =
      Except.error ⟨500, "Fava returned " ++ toString 500⟩ :=
  (claim_C6 500 (Json.obj []) "boom" true (by decide)).1.1

/-- Claim C8: numeric coercion is total (embedded as a total function
into `Option Rat`) and idempotent — a float it produced coerces to
itself — and null, absence, dicts, lists and a non-numeric string all
coerce to unknown. -/
theorem claim_C8 :
    (∀ (x : Option Json) (v : Rat), _num x = some v → _num (some (Json.num v)) = some v) ∧
    _num none = none ∧ _num (some Json.null) = none ∧
    (∀ f, _num (some (Json.obj f)) = none) ∧
    (∀ l, _num (some (Json.arr l)) = none) ∧
    _num (some (Json.str "abc")) = none :=
  ⟨fun _ v _ => rfl, rfl, rfl, fun _ => rfl, fun _ => rfl, rfl⟩

/-- Claim C8 witness: coercing the already-coerced float 3 returns 3. -/
theorem claim_C8_witness : _num (some (Json.num 3)) = some 3 :=
  claim_C8.1 (some (Json.num 3)) 3 rfl

/-- Claim C9: a successful response carries `raw` exactly when
`return_raw` is true, and then `raw` equals the decoded upstream JSON. -/
theorem claim_C9 (outcome : UpstreamOutcome) (rr : Bool) (r : RouteResult)
    (h : explain_income_statement outcome rr = RouteOutcome.ok r) :
    (r.raw.isSome = rr) ∧
    (∀ d, _http_get_income_statement outcome = Except.ok d → rr = true → r.raw = some d) := by
  unfold explain_income_statement at h
  split at h
  · exact absurd h (by simp)
  · rename_i d hf
    split at h
    · exact absurd h (by simp)
    · rename_i s0 hsum
      simp only [RouteOutcome.ok.injEq] at h
      subst h
      refine ⟨by cases rr <;> simp, ?_⟩
      intro d2 hd2 hrr
      rw [hf] at hd2
      simp only [Except.ok.injEq] at hd2
      subst hd2
      subst hrr
      simp

/-- Claim C9 witness: with `return_raw = true` and upstream body `{}`,
the response's `raw` is exactly that body. -/
theorem claim_C9_witness :
    (RouteResult.mk FAVA_INCOME_API (summarizeFields []) (some (Json.obj []))).raw =
      some (Json.obj []) :=
  (claim_C9 (.response 200 (Json.obj [])) true
    ⟨FAVA_INCOME_API, summarizeFields [], some (Json.obj [])⟩ rfl).2 (Json.obj []) rfl rfl

/-- Claim C10: numeric coercion maps `true` to 1.0 and `false` to 0.0
(Python `bool` is an `int` subclass), and a node whose only
value-candidate field is `true` is recorded with value 1 and ranks in
`top_income`. -/
theorem claim_C10 :
    _num (some (Json.bool true)) = some 1 ∧ _num (some (Json.bool false)) = some 0 ∧
    collect_categories (Json.obj [("name", Json.str "A"), ("balance", Json.bool true)]) =
      [⟨"A", 1⟩] ∧
    (summarizeFields [("children",
        Json.arr [Json.obj [("name", Json.str "A"), ("balance", Json.bool true)]])]).top_income =
      [⟨"A", 1⟩] := by
  refine ⟨rfl, rfl, ?_, ?_⟩
  · simp [nodeEntry, nodeName, nodeVal, childCollection, pyGet,
      lookupField, pyOr, truthy, _num, pyFloat, pyStr]
    decide
  · simp [summarizeFields, topLevelCats, collectKey, topIncomeOf, topExpensesOf,
      sortDescBy, insertDescBy, nodeEntry, nodeName, nodeVal, childCollection, pyGet,
      lookupField, pyOr, truthy, _num, pyFloat, pyStr, List.filter]
    decide

/-- Claim C2 counterexample: in the node
`{"name": "", "label": "X", "balance": 0, "amount": 7}` the keys `name`
and `balance` are present and non-null, yet the recorded entry takes its
name from `label` and its value from `amount`: the empty string and the
number 0 are falsy, so Python `or` skips them. -/
theorem claim_C2_counterexample :
    collect_categories (Json.obj [("name", Json.str ""), ("label", Json.str "X"),
      ("balance", Json.num 0), ("amount", Json.num 7)]) = [⟨"X", 7⟩] := by
  simp [nodeEntry, nodeName, nodeVal, childCollection, pyGet, lookupField, pyOr,
    truthy, _num, pyFloat, pyStr]
  decide

/-- Claim C2 (amended): the recorded name comes from the first key among
`name`, `label`, `account`, `title` whose value is present and truthy
(null, false, 0, empty strings and empty containers fall through), with
the final key's lookup used as-is when all earlier ones are falsy; the
value likewise from the first truthy among `balance`, `amount`, `value`,
`total`, coerced via `_num`; when both chains resolve, the entry records
`str(name)` and the coerced value. -/
theorem claim_C2 (fields : List (String × Json)) :
    (truthyOpt (pyGet fields "name") = true → nodeName fields = pyGet fields "name") ∧
    (truthyOpt (pyGet fields "name") = false → truthyOpt (pyGet fields "label") = true →
      nodeName fields = pyGet fields "label") ∧
    (truthyOpt (pyGet fields "name") = false → truthyOpt (pyGet fields "label") = false →
      truthyOpt (pyGet fields "account") = true →
      nodeName fields = pyGet fields "account") ∧
    (truthyOpt (pyGet fields "name") = false → truthyOpt (pyGet fields "label") = false →
      truthyOpt (pyGet fields "account") = false →
      nodeName fields = pyGet fields "title") ∧
    (truthyOpt (pyGet fields "balance") = true →
      nodeVal fields = _num (pyGet fields "balance")) ∧
    (truthyOpt (pyGet fields "balance") = false → truthyOpt (pyGet fields "amount") = true →
      nodeVal fields = _num (pyGet fields "amount")) ∧
    (truthyOpt (pyGet fields "balance") = false → truthyOpt (pyGet fields "amount") = false →
      truthyOpt (pyGet fields "value") = true →
      nodeVal fields = _num (pyGet fields "value")) ∧
    (truthyOpt (pyGet fields "balance") = false → truthyOpt (pyGet fields "amount") = false →
      truthyOpt (pyGet fields "value") = false →
      nodeVal fields = _num (pyGet fields "total")) ∧
    (∀ n v, nodeName fields = some n → nodeVal fields = some v →
      nodeEntry fields = some ⟨pyStr n, v⟩) := by
  refine ⟨?_, ?_, ?_, ?_, ?_, ?_, ?_, ?_, ?_⟩
  · intro h1
    rw [nodeName, pyOr_of_truthy _ h1]
  · intro h1 h2
    rw [nodeName, pyOr_of_falsy _ h1, pyOr_of_truthy _ h2]
  · intro h1 h2 h3
    rw [nodeName, pyOr_of_falsy _ h1, pyOr_of_falsy _ h2, pyOr_of_truthy _ h3]
  · intro h1 h2 h3
    rw [nodeName, pyOr_of_falsy _ h1, pyOr_of_falsy _ h2, pyOr_of_falsy _ h3]
  · intro h1
    rw [nodeVal, pyOr_of_truthy _ h1]
  · intro h1 h2
    rw [nodeVal, pyOr_of_falsy _ h1, pyOr_of_truthy _ h2]
  · intro h1 h2 h3
    rw [nodeVal, pyOr_of_falsy _ h1, pyOr_of_falsy _ h2, pyOr_of_truthy _ h3]
  · intro h1 h2 h3
    rw [nodeVal, pyOr_of_falsy _ h1, pyOr_of_falsy _ h2, pyOr_of_falsy _ h3]
  · intro n v hn hv
    rw [nodeEntry, hn, hv]

/-- Claim C2 witness: with `name` present but falsy (the empty string)
and `label` truthy, the name chain selects `label`. -/
theorem claim_C2_witness :
    nodeName [("name", Json.str ""), ("label", Json.str "X")] =
      pyGet [("name", Json.str ""), ("label", Json.str "X")] "label" :=
  (claim_C2 [("name", Json.str ""), ("label", Json.str "X")]).2.1 rfl rfl

/-- Claim C3 counterexample: with `totals = {"net": 0, "profit": 5}` the
key `net` is present with value 0, yet the summary's net_profit is 5:
`or` skips the falsy 0, so the later key's value wins, refuting
"a present-but-zero earlier key is used". -/
theorem claim_C3_counterexample :
    (summarizeFields [("totals",
        Json.obj [("net", Json.num 0), ("profit", Json.num 5)])]).totals.net_profit =
      some 5 := by
  simp [summarizeFields, totalsOf, incomeTotal, expensesTotal, netBeforeFallback,
    totalsFromDict, netFromTotalsDict, topLevelNet, pyGet, lookupField, pyOr,
    truthy, _num, pyFloat]

/-- Claim C3 (amended): in both net chains the first key with a truthy
value wins (a present-but-falsy key such as 0 falls through, and the
last key's lookup is used as-is); the `totals`-dict chain feeds the
summary's net before the top-level chain is consulted. -/
theorem claim_C3 (fields tf : List (String × Json)) :
    (truthyOpt (pyGet tf "net") = true →
      netFromTotalsDict tf = _num (pyGet tf "net")) ∧
    (truthyOpt (pyGet tf "net") = false → truthyOpt (pyGet tf "profit") = true →
      netFromTotalsDict tf = _num (pyGet tf "profit")) ∧
    (truthyOpt (pyGet tf "net") = false → truthyOpt (pyGet tf "profit") = false →
      netFromTotalsDict tf = _num (pyGet tf "net_profit")) ∧
    (truthyOpt (pyGet fields "net_profit") = true →
      topLevelNet fields = _num (pyGet fields "net_profit")) ∧
    (truthyOpt (pyGet fields "net_profit") = false →
      truthyOpt (pyGet fields "net") = true →
      topLevelNet fields = _num (pyGet fields "net")) ∧
    (truthyOpt (pyGet fields "net_profit") = false →
      truthyOpt (pyGet fields "net") = false →
      topLevelNet fields = _num (pyGet fields "profit")) ∧
    (pyGet fields "totals" = some (Json.obj tf) →
      (totalsFromDict fields).2.2 = netFromTotalsDict tf) ∧
    (∀ v, netBeforeFallback fields = some v → (totalsOf fields).net_profit = some v) := by
  refine ⟨?_, ?_, ?_, ?_, ?_, ?_, ?_, ?_⟩
  · intro h1
    rw [netFromTotalsDict, pyOr_of_truthy _ h1]
  · intro h1 h2
    rw [netFromTotalsDict, pyOr_of_falsy _ h1, pyOr_of_truthy _ h2]
  · intro h1 h2
    rw [netFromTotalsDict, pyOr_of_falsy _ h1, pyOr_of_falsy _ h2]
  · intro h1
    rw [topLevelNet, pyOr_of_truthy _ h1]
  · intro h1 h2
    rw [topLevelNet, pyOr_of_falsy _ h1, pyOr_of_truthy _ h2]
  · intro h1 h2
    rw [topLevelNet, pyOr_of_falsy _ h1, pyOr_of_falsy _ h2]
  · intro h1
    rw [totalsFromDict, h1]
  · intro v hv
    show (totalsOf fields).net_profit = some v
    unfold totalsOf
    rw [hv]

/-- Claim C3 witness: `totals = {"net": 0, "profit": 5}` has a falsy
`net`, so the chain selects `profit`. -/
theorem claim_C3_witness :
    netFromTotalsDict [("net", Json.num 0), ("profit", Json.num 5)] =
      _num (pyGet [("net", Json.num 0), ("profit", Json.num 5)] "profit") :=
  (claim_C3 [] [("net", Json.num 0), ("profit", Json.num 5)]).2.1 rfl rfl

/-- Claim C4 counterexample: with `children` present but an empty list,
recursion still proceeds into `accounts` and collects its entry — a
later-listed key is used although `children` is present, because the
empty list is falsy under Python `or`. -/
theorem claim_C4_counterexample :
    collect_categories (Json.obj [("children", Json.arr []),
      ("accounts", Json.arr [Json.obj [("name", Json.str "X"), ("balance", Json.num 1)]])]) =
      [⟨"X", 1⟩] := by
  simp [nodeEntry, nodeName, nodeVal, childCollection, pyGet, lookupField, pyOr,
    truthy, _num, pyFloat, pyStr]
  decide

/-- `collectChildren` visits every element of a sibling list in order. -/
theorem collectChildren_eq_join (l : List Json) :
    collectChildren l = (l.map collect_categories).flatten := by
  induction l with
  | nil => simp
  | cons x xs ih => simp [ih]

/-- Claim C4 (amended): recursion proceeds into the child collection
under the first key among `children`, `accounts`, `items` whose value is
truthy (a present-but-falsy value such as an empty list falls through,
with `items` used as-is when all are falsy); a list child is visited
element by element, an object child directly, anything else not at all —
regardless of whether the node recorded an entry. -/
theorem claim_C4 (fields : List (String × Json)) :
    (truthyOpt (pyGet fields "children") = true →
      childCollection fields = pyGet fields "children") ∧
    (truthyOpt (pyGet fields "children") = false →
      truthyOpt (pyGet fields "accounts") = true →
      childCollection fields = pyGet fields "accounts") ∧
    (truthyOpt (pyGet fields "children") = false →
      truthyOpt (pyGet fields "accounts") = false →
      childCollection fields = pyGet fields "items") ∧
    (∀ l, childCollection fields = some (Json.arr l) →
      collect_categories (Json.obj fields) =
        (nodeEntry fields).toList ++ (l.map collect_categories).flatten) ∧
    (∀ f2, childCollection fields = some (Json.obj f2) →
      collect_categories (Json.obj fields) =
        (nodeEntry fields).toList ++ collect_categories (Json.obj f2)) ∧
    (childCollection fields = none →
      collect_categories (Json.obj fields) = (nodeEntry fields).toList) := by
  refine ⟨?_, ?_, ?_, ?_, ?_, ?_⟩
  · intro h1
    rw [childCollection, pyOr_of_truthy _ h1]
  · intro h1 h2
    rw [childCollection, pyOr_of_falsy _ h1, pyOr_of_truthy _ h2]
  · intro h1 h2
    rw [childCollection, pyOr_of_falsy _ h1, pyOr_of_falsy _ h2]
  · intro l hl
    rw [collect_categories_obj, hl]
    simp [collectChildren_eq_join]
  · intro f2 hf2
    rw [collect_categories_obj, hf2]
  · intro hn
    rw [collect_categories_obj, hn]
    simp

/-- Claim C4 witness: `children` bound to the empty list is falsy, so
the chain recurses under `accounts`. -/
theorem claim_C4_witness :
    childCollection [("children", Json.arr []),
        ("accounts", Json.arr [Json.obj [("name", Json.str "X"), ("balance", Json.num 1)]])] =
      pyGet [("children", Json.arr []),
        ("accounts", Json.arr [Json.obj [("name", Json.str "X"), ("balance", Json.num 1)]])]
        "accounts" :=
  (claim_C4 [("children", Json.arr []),
    ("accounts", Json.arr [Json.obj [("name", Json.str "X"), ("balance", Json.num 1)]])]).2.1
    rfl rfl

/-- Claim C7: top_income is (the 5-truncation of) the stable descending
sort by value of exactly the positive-valued collected entries, and
top_expenses likewise by absolute value of the negative-valued ones;
both lists hold at most 5 entries; zero-valued entries appear in
neither. The stability conjunct pins ties to first-encounter order:
within every key class the sorted list keeps the collection order. -/
theorem claim_C7 (fields : List (String × Json)) :
    (∃ l : List CategoryEntry,
      l.Perm ((topLevelCats fields).filter (fun c => 0 < c.value)) ∧
      l.Pairwise (fun a b => b.value ≤ a.value) ∧
      (∀ q : Rat, l.filter (fun c => c.value == q) =
        ((topLevelCats fields).filter (fun c => 0 < c.value)).filter
          (fun c => c.value == q)) ∧
      (summarizeFields fields).top_income = l.take 5) ∧
    (∃ l : List CategoryEntry,
      l.Perm ((topLevelCats fields).filter (fun c => c.value < 0)) ∧
      l.Pairwise (fun a b => |b.value| ≤ |a.value|) ∧
      (∀ q : Rat, l.filter (fun c => |c.value| == q) =
        ((topLevelCats fields).filter (fun c => c.value < 0)).filter
          (fun c => |c.value| == q)) ∧
      (summarizeFields fields).top_expenses = l.take 5) ∧
    (summarizeFields fields).top_income.length ≤ 5 ∧
    (summarizeFields fields).top_expenses.length ≤ 5 ∧
    (∀ c ∈ (summarizeFields fields).top_income, 0 < c.value) ∧
    (∀ c ∈ (summarizeFields fields).top_expenses, c.value < 0) := by
  by_cases hc : (topLevelCats fields).isEmpty
  · have hnil : topLevelCats fields = [] := List.isEmpty_iff.mp hc
    have hti : (summarizeFields fields).top_income = [] := by
      simp [summarizeFields, hc]
    have hte : (summarizeFields fields).top_expenses = [] := by
      simp [summarizeFields, hc]
    refine ⟨⟨[], ?_, ?_, ?_, ?_⟩, ⟨[], ?_, ?_, ?_, ?_⟩, ?_, ?_, ?_, ?_⟩ <;>
      simp [hnil, hti, hte]
  · have hti : (summarizeFields fields).top_income = topIncomeOf (topLevelCats fields) := by
      simp [summarizeFields, hc]
    have hte : (summarizeFields fields).top_expenses =
        topExpensesOf (topLevelCats fields) := by
      simp [summarizeFields, hc]
    refine ⟨⟨sortDescBy (fun c => c.value)
        ((topLevelCats fields).filter (fun c => 0 < c.value)), ?_, ?_, ?_, ?_⟩,
      ⟨sortDescBy (fun c => |c.value|)
        ((topLevelCats fields).filter (fun c => c.value < 0)), ?_, ?_, ?_, ?_⟩,
      ?_, ?_, ?_, ?_⟩
    · exact sortDescBy_perm _ _
    · exact sortDescBy_pairwise _ _
    · intro q
      exact sortDescBy_filter_key (fun c => c.value) _ q
    · rw [hti, topIncomeOf]
    · exact sortDescBy_perm _ _
    · exact sortDescBy_pairwise _ _
    · intro q
      exact sortDescBy_filter_key (fun c => |c.value|) _ q
    · rw [hte, topExpensesOf]
    · rw [hti, topIncomeOf]
      exact List.length_take_le 5 _
    · rw [hte, topExpensesOf]
      exact List.length_take_le 5 _
    · intro c hcm
      rw [hti, topIncomeOf] at hcm
      have h1 := List.take_subset 5 _ hcm
      have h2 := (sortDescBy_perm (fun c => c.value) _).mem_iff.mp h1
      have h3 := (List.mem_filter.mp h2).2
      exact of_decide_eq_true h3
    · intro c hcm
      rw [hte, topExpensesOf] at hcm
      have h1 := List.take_subset 5 _ hcm
      have h2 := (sortDescBy_perm (fun c => |c.value|) _).mem_iff.mp h1
      have h3 := (List.mem_filter.mp h2).2
      exact of_decide_eq_true h3

/-- Claim C7 witness: on a one-category statement the sole entry ranks
in top_income and its value is positive. -/
theorem claim_C7_witness : (0 : Rat) < (CategoryEntry.mk "A" 1).value := by
  have h := (claim_C7 [("children",
    Json.arr [Json.obj [("name", Json.str "A"), ("balance", Json.num 1)]])]).2.2.2.2.1
  refine h ⟨"A", 1⟩ ?_
  simp [summarizeFields, topLevelCats, collectKey, topIncomeOf, topExpensesOf,
    sortDescBy, insertDescBy, nodeEntry, nodeName, nodeVal, childCollection, pyGet,
    lookupField, pyOr, truthy, _num, pyFloat, pyStr, List.filter]
  decide

end FavaMCP
